import Mathlib

/-!
Shallow embedding of `src/dbms/src/Databases/DatabasesCommon.cpp`
(`DB::DatabaseWithOwnTablesBase` and the local helper `getDictionaryStorage`).

External collaborators (the Dictionary Loader, `StorageDictionary`, the
configuration) are modelled at their interface boundary, as the spec's §6
describes them: the loader is a function from qualified names to an optional
dictionary handle, a handle carries its structural schema, and
`StorageDictionary::create` is a constructor of an opaque storage value.

The C++ maps are modelled as association lists (`std::map<String, StoragePtr>`)
and lists of names (`std::set<String>`); `emplace` inserts only when the key is
absent and reports whether it inserted, `erase` removes the key, mirroring the
container semantics the source relies on.  Exceptions are modelled as an
`Except` error channel whose error type has one constructor per `throw` site.

A second, instrumented translation of each member function (`...Ev`) returns
in addition the list of lock/unlock and external-call events the function
performs, in program order, so that the lock discipline (which calls into the
Dictionary Loader or into a storage handle's `shutdown` happen while the
per-database mutex is held) becomes a provable property of a trace.
-/

namespace DB

/-- External collaborator: the structural schema of a dictionary
(`DictionaryStructure`), modelled as its list of attribute names and types. -/
structure DictionaryStructure where
  attributes : List (String × String)
deriving DecidableEq, Repr

/-- External collaborator: `StorageDictionary::getNamesAndTypes` derives the
column list from a dictionary's structural schema. -/
def StorageDictionary.getNamesAndTypes (s : DictionaryStructure) : List (String × String) :=
  s.attributes

/-- A `StoragePtr`: either an ordinary table handle (opaque, identified by an
id) or a dictionary-backed read-only view built by `StorageDictionary::create`
from a database name, table name, column list, attach flag and qualified
dictionary name. -/
inductive StoragePtr where
  | storage (id : Nat)
  | storageDictionary (database_name : String) (table_name : String)
      (columns : List (String × String)) (attach : Bool) (dictionary_name : String)
deriving DecidableEq, Repr

/-- External collaborator `StorageDictionary::create`. -/
def StorageDictionary.create (database_name table_name : String)
    (columns : List (String × String)) (attach : Bool) (dictionary_name : String) : StoragePtr :=
  StoragePtr.storageDictionary database_name table_name columns attach dictionary_name

/-- The slice of `Context` the source reads: the external dictionaries loader
(`tryGetDictionary`, modelled as a partial map from qualified names),
whether `reload(qualifiedName, wait)` fails by throwing, and the
`dictionaries_lazy_load` configuration flag. -/
structure Context where
  externalDictionaries : String → Option DictionaryStructure
  reloadFails : String → Bool → Bool
  dictionaries_lazy_load : Bool

/-- Model of `ExternalDictionariesLoader::tryGetDictionary`. -/
def Context.tryGetDictionary (context : Context) (dict_name : String) :
    Option DictionaryStructure :=
  context.externalDictionaries dict_name

/-- One constructor per `throw` site of the source file.  The spec's abstract
error taxonomy maps onto these as: `Misuse` = `cannotDetachDictionaryAsTable`,
`NotFound` = `tableDoesntExist` / `dictionaryDoesntExist`, `AlreadyExists` =
`tableAlreadyExists` / `dictionaryAlreadyExists`; `externalLoaderReloadFailed`
stands for an exception propagated out of the external loader's `reload`. -/
inductive DBException where
  | cannotDetachDictionaryAsTable (database_name table_name : String)
  | tableDoesntExist (database_name table_name : String)
  | dictionaryDoesntExist (database_name dictionary_name : String)
  | tableAlreadyExists (database_name table_name : String)
  | dictionaryAlreadyExists (database_name dictionary_name : String)
  | externalLoaderReloadFailed (qualified_name : String)
deriving DecidableEq, Repr

/-- The `ErrorCodes` the source attaches to its exceptions. -/
inductive ErrorCode where
  | TABLE_ALREADY_EXISTS
  | UNKNOWN_TABLE
  | DICTIONARY_ALREADY_EXISTS
  | EXTERNAL
deriving DecidableEq, Repr

/-- The error code of each throw site, as in the source: the misuse throw in
`detachTable` uses `UNKNOWN_TABLE`, as do both doesn't-exist throws. -/
def DBException.code : DBException → ErrorCode
  | .cannotDetachDictionaryAsTable _ _ => .UNKNOWN_TABLE
  | .tableDoesntExist _ _ => .UNKNOWN_TABLE
  | .dictionaryDoesntExist _ _ => .UNKNOWN_TABLE
  | .tableAlreadyExists _ _ => .TABLE_ALREADY_EXISTS
  | .dictionaryAlreadyExists _ _ => .DICTIONARY_ALREADY_EXISTS
  | .externalLoaderReloadFailed _ => .EXTERNAL

/-- Model of `Tables = std::map<String, StoragePtr>`, as an association list. -/
abbrev Tables := List (String × StoragePtr)

/-- Model of `Dictionaries = std::set<String>`, as a list of names. -/
abbrev Dictionaries := List String

/-- Model of `std::map::find`. -/
def Tables.find : Tables → String → Option StoragePtr
  | [], _ => none
  | kv :: rest, k => if kv.1 = k then some kv.2 else Tables.find rest k

/-- Model of `std::map::emplace`: inserts only when the key is absent; the `Bool` is the
`second` of the returned pair (whether insertion took place). -/
def Tables.emplace (m : Tables) (k : String) (v : StoragePtr) : Tables × Bool :=
  match Tables.find m k with
  | some _ => (m, false)
  | none => (m ++ [(k, v)], true)

/-- Model of `std::map::erase` of a key. -/
def Tables.eraseKey (m : Tables) (k : String) : Tables :=
  m.filter (fun kv => !(kv.1 == k))

/-- Model of `std::set::count` as a membership test. -/
def Dictionaries.count (s : Dictionaries) (x : String) : Bool :=
  s.contains x

/-- Model of `std::set::emplace`: inserts only when absent; the `Bool` is whether
insertion took place. -/
def Dictionaries.emplace (s : Dictionaries) (x : String) : Dictionaries × Bool :=
  if s.contains x then (s, false) else (s ++ [x], true)

/-- Model of `std::set::erase` of a member. -/
def Dictionaries.eraseKey (s : Dictionaries) (x : String) : Dictionaries :=
  s.filter (fun y => !(y == x))

/-- The state of one `DatabaseWithOwnTablesBase`: the database `name`, the
table map and the dictionary name set (the two structures guarded by the
per-database mutex). -/
structure DatabaseWithOwnTablesBase where
  name : String
  tables : Tables
  dictionaries : Dictionaries
deriving DecidableEq, Repr

/-- Model of `getDatabaseName()`. -/
def DatabaseWithOwnTablesBase.getDatabaseName (db : DatabaseWithOwnTablesBase) : String :=
  db.name

/-- The anonymous-namespace helper `getDictionaryStorage`: asks the loader for
`db_name + "." + table_name`; when a dictionary handle exists, derives columns
from its structure and builds a fresh `StorageDictionary`; otherwise returns
`nullptr` (here `none`). -/
def getDictionaryStorage (context : Context) (table_name : String) (db_name : String) :
    Option StoragePtr :=
  let dict_name := db_name ++ "." ++ table_name
  match context.tryGetDictionary dict_name with
  | some dict_ptr =>
      let columns := StorageDictionary.getNamesAndTypes dict_ptr
      some (StorageDictionary.create db_name table_name columns true dict_name)
  | none => none

/-- Model of `DatabaseWithOwnTablesBase::isTableExist`. -/
def DatabaseWithOwnTablesBase.isTableExist (db : DatabaseWithOwnTablesBase)
    (table_name : String) : Bool :=
  (Tables.find db.tables table_name).isSome || Dictionaries.count db.dictionaries table_name

/-- Model of `DatabaseWithOwnTablesBase::isDictionaryExist`. -/
def DatabaseWithOwnTablesBase.isDictionaryExist (db : DatabaseWithOwnTablesBase)
    (dictionary_name : String) : Bool :=
  Dictionaries.count db.dictionaries dictionary_name

/-- Model of `DatabaseWithOwnTablesBase::tryGetTable`: the stored handle when present;
otherwise, for a dictionary name, the result of `getDictionaryStorage`;
otherwise nothing. -/
def DatabaseWithOwnTablesBase.tryGetTable (context : Context)
    (db : DatabaseWithOwnTablesBase) (table_name : String) : Option StoragePtr :=
  match Tables.find db.tables table_name with
  | none =>
      if Dictionaries.count db.dictionaries table_name then
        getDictionaryStorage context table_name db.getDatabaseName
      else
        none
  | some it => some it

/-- Model of `DatabaseWithOwnTablesBase::getTablesWithDictionaryTablesIterator`.
Translated exactly as written: in the filtered branch the materialized
dictionary views are emplaced into `tables_copy` (the unfiltered copy), while
the returned snapshot is built from `filtered_tables`. -/
def DatabaseWithOwnTablesBase.getTablesWithDictionaryTablesIterator (context : Context)
    (db : DatabaseWithOwnTablesBase) (filter_by_table_name : Option (String → Bool)) :
    Tables :=
  let tables_copy := db.tables
  match filter_by_table_name with
  | none =>
      let tables_copy := db.dictionaries.foldl
        (fun acc dictionary_name =>
          match getDictionaryStorage context dictionary_name db.getDatabaseName with
          | some dictionary_storage => (Tables.emplace acc dictionary_name dictionary_storage).1
          | none => acc)
        tables_copy
      tables_copy
  | some filt =>
      let filtered_tables := db.tables.foldl
        (fun acc kv => if filt kv.1 then (Tables.emplace acc kv.1 kv.2).1 else acc) []
      let _tables_copy := db.dictionaries.foldl
        (fun acc dictionary_name =>
          if filt dictionary_name then
            match getDictionaryStorage context dictionary_name db.getDatabaseName with
            | some dictionary_storage => (Tables.emplace acc dictionary_name dictionary_storage).1
            | none => acc
          else acc)
        tables_copy
      filtered_tables

/-- Model of `DatabaseWithOwnTablesBase::getTablesIterator`. -/
def DatabaseWithOwnTablesBase.getTablesIterator (db : DatabaseWithOwnTablesBase)
    (filter_by_table_name : Option (String → Bool)) : Tables :=
  match filter_by_table_name with
  | none => db.tables
  | some filt =>
      db.tables.foldl
        (fun acc kv => if filt kv.1 then (Tables.emplace acc kv.1 kv.2).1 else acc) []

/-- Model of `DatabaseWithOwnTablesBase::getDictionariesIterator`. -/
def DatabaseWithOwnTablesBase.getDictionariesIterator (db : DatabaseWithOwnTablesBase)
    (filter_by_dictionary_name : Option (String → Bool)) : Dictionaries :=
  match filter_by_dictionary_name with
  | none => db.dictionaries
  | some filt =>
      db.dictionaries.foldl
        (fun acc dictionary_name =>
          if filt dictionary_name then acc ++ [dictionary_name] else acc) []

/-- Model of `DatabaseWithOwnTablesBase::empty`. -/
def DatabaseWithOwnTablesBase.empty (db : DatabaseWithOwnTablesBase) : Bool :=
  db.tables.isEmpty && db.dictionaries.isEmpty

/-- Model of `DatabaseWithOwnTablesBase::detachTable`: misuse throw for a dictionary
name, doesn't-exist throw for an absent table, otherwise erase and return the
stored handle. -/
def DatabaseWithOwnTablesBase.detachTable (db : DatabaseWithOwnTablesBase)
    (table_name : String) : Except DBException StoragePtr × DatabaseWithOwnTablesBase :=
  if Dictionaries.count db.dictionaries table_name then
    (.error (.cannotDetachDictionaryAsTable db.name table_name), db)
  else
    match Tables.find db.tables table_name with
    | none => (.error (.tableDoesntExist db.name table_name), db)
    | some res => (.ok res, { db with tables := Tables.eraseKey db.tables table_name })

/-- Model of `DatabaseWithOwnTablesBase::detachDictionary`: erase under the lock, then
(outside the lock) `reload(qualified, true)`; a throwing reload propagates
after the erase has been committed. -/
def DatabaseWithOwnTablesBase.detachDictionary (context : Context)
    (db : DatabaseWithOwnTablesBase) (dictionary_name : String) :
    Except DBException Unit × DatabaseWithOwnTablesBase :=
  if Dictionaries.count db.dictionaries dictionary_name then
    let db1 := { db with dictionaries := Dictionaries.eraseKey db.dictionaries dictionary_name }
    let qualified := db1.getDatabaseName ++ "." ++ dictionary_name
    if context.reloadFails qualified true then
      (.error (.externalLoaderReloadFailed qualified), db1)
    else
      (.ok (), db1)
  else
    (.error (.dictionaryDoesntExist db.name dictionary_name), db)

/-- Model of `DatabaseWithOwnTablesBase::attachTable`: a single `emplace`, throwing when
the key was already present. -/
def DatabaseWithOwnTablesBase.attachTable (db : DatabaseWithOwnTablesBase)
    (table_name : String) (table : StoragePtr) :
    Except DBException Unit × DatabaseWithOwnTablesBase :=
  match Tables.emplace db.tables table_name table with
  | (_, false) => (.error (.tableAlreadyExists db.name table_name), db)
  | (newTables, true) => (.ok (), { db with tables := newTables })

/-- Model of `DatabaseWithOwnTablesBase::attachDictionary`: emplace under the lock
(throwing on a duplicate), then, when `load` is set, `reload(qualified,
!lazy_load)` outside the lock; a throwing reload propagates after the insert
has been committed. -/
def DatabaseWithOwnTablesBase.attachDictionary (context : Context)
    (db : DatabaseWithOwnTablesBase) (dictionary_name : String) (load : Bool) :
    Except DBException Unit × DatabaseWithOwnTablesBase :=
  match Dictionaries.emplace db.dictionaries dictionary_name with
  | (_, false) => (.error (.dictionaryAlreadyExists db.name dictionary_name), db)
  | (newDicts, true) =>
      let db1 := { db with dictionaries := newDicts }
      if load then
        let lazy_load := context.dictionaries_lazy_load
        let qualified := db1.getDatabaseName ++ "." ++ dictionary_name
        if context.reloadFails qualified (!lazy_load) then
          (.error (.externalLoaderReloadFailed qualified), db1)
        else
          (.ok (), db1)
      else
        (.ok (), db1)

/-- Model of `DatabaseWithOwnTablesBase::shutdown`: snapshot the table map under the
lock, call `shutdown()` on every handle of the snapshot outside the lock, then
re-acquire the lock and clear both structures.  The second component is the
list of handles whose `shutdown()` was invoked, in invocation order. -/
def DatabaseWithOwnTablesBase.shutdown (db : DatabaseWithOwnTablesBase) :
    DatabaseWithOwnTablesBase × List StoragePtr :=
  let tables_snapshot := db.tables
  let shutdown_calls := tables_snapshot.map (fun kv => kv.2)
  ({ db with tables := [], dictionaries := [] }, shutdown_calls)

/-! ## Instrumented translations (event traces)

Each member function is translated a second time, returning additionally the
list of events it performs in program order: mutex acquisitions and releases
(`lock` is a `std::lock_guard` construction, `unlock` its destruction at the
end of the enclosing scope) and the calls into external collaborators (the
loader's `tryGetDictionary` and `reload`, a storage handle's `shutdown`).
These traces make the lock discipline a provable property. -/

/-- An observable event of a registry operation. -/
inductive Event where
  | lock
  | unlock
  | loaderTryGetDictionary (qualified_name : String)
  | loaderReload (qualified_name : String) (wait : Bool)
  | storageShutdownCall (handle : StoragePtr)
deriving DecidableEq, Repr

/-- Instrumented `getDictionaryStorage`: same result, plus its single call
into the loader. -/
def getDictionaryStorageEv (context : Context) (table_name : String) (db_name : String) :
    Option StoragePtr × List Event :=
  let dict_name := db_name ++ "." ++ table_name
  (getDictionaryStorage context table_name db_name, [Event.loaderTryGetDictionary dict_name])

/-- Instrumented `isTableExist`. -/
def DatabaseWithOwnTablesBase.isTableExistEv (db : DatabaseWithOwnTablesBase)
    (table_name : String) : Bool × List Event :=
  (db.isTableExist table_name, [Event.lock, Event.unlock])

/-- Instrumented `isDictionaryExist`. -/
def DatabaseWithOwnTablesBase.isDictionaryExistEv (db : DatabaseWithOwnTablesBase)
    (dictionary_name : String) : Bool × List Event :=
  (db.isDictionaryExist dictionary_name, [Event.lock, Event.unlock])

/-- Instrumented `tryGetTable`: the `lock_guard` spans the whole body, so when
the dictionary branch is taken the loader call happens before `unlock`. -/
def DatabaseWithOwnTablesBase.tryGetTableEv (context : Context)
    (db : DatabaseWithOwnTablesBase) (table_name : String) :
    Option StoragePtr × List Event :=
  match Tables.find db.tables table_name with
  | none =>
      if Dictionaries.count db.dictionaries table_name then
        let (res, evs) := getDictionaryStorageEv context table_name db.getDatabaseName
        (res, [Event.lock] ++ evs ++ [Event.unlock])
      else
        (none, [Event.lock, Event.unlock])
  | some it => (some it, [Event.lock, Event.unlock])

/-- Instrumented `getTablesWithDictionaryTablesIterator`: the `lock_guard`
spans the whole body, including every `getDictionaryStorage` call; in the
filtered branch the loader is consulted exactly for the dictionary names that
pass the filter. -/
def DatabaseWithOwnTablesBase.getTablesWithDictionaryTablesIteratorEv (context : Context)
    (db : DatabaseWithOwnTablesBase) (filter_by_table_name : Option (String → Bool)) :
    Tables × List Event :=
  let result := db.getTablesWithDictionaryTablesIterator context filter_by_table_name
  match filter_by_table_name with
  | none =>
      let loader_events := db.dictionaries.foldl
        (fun acc dictionary_name =>
          acc ++ (getDictionaryStorageEv context dictionary_name db.getDatabaseName).2) []
      (result, [Event.lock] ++ loader_events ++ [Event.unlock])
  | some filt =>
      let loader_events := db.dictionaries.foldl
        (fun acc dictionary_name =>
          if filt dictionary_name then
            acc ++ (getDictionaryStorageEv context dictionary_name db.getDatabaseName).2
          else acc) []
      (result, [Event.lock] ++ loader_events ++ [Event.unlock])

/-- Instrumented `getTablesIterator`. -/
def DatabaseWithOwnTablesBase.getTablesIteratorEv (db : DatabaseWithOwnTablesBase)
    (filter_by_table_name : Option (String → Bool)) : Tables × List Event :=
  (db.getTablesIterator filter_by_table_name, [Event.lock, Event.unlock])

/-- Instrumented `getDictionariesIterator`. -/
def DatabaseWithOwnTablesBase.getDictionariesIteratorEv (db : DatabaseWithOwnTablesBase)
    (filter_by_dictionary_name : Option (String → Bool)) : Dictionaries × List Event :=
  (db.getDictionariesIterator filter_by_dictionary_name, [Event.lock, Event.unlock])

/-- Instrumented `empty`. -/
def DatabaseWithOwnTablesBase.emptyEv (db : DatabaseWithOwnTablesBase) :
    Bool × List Event :=
  (db.empty, [Event.lock, Event.unlock])

/-- Instrumented `attachTable`. -/
def DatabaseWithOwnTablesBase.attachTableEv (db : DatabaseWithOwnTablesBase)
    (table_name : String) (table : StoragePtr) :
    (Except DBException Unit × DatabaseWithOwnTablesBase) × List Event :=
  (db.attachTable table_name table, [Event.lock, Event.unlock])

/-- Instrumented `detachTable`: no external calls, one critical section. -/
def DatabaseWithOwnTablesBase.detachTableEv (db : DatabaseWithOwnTablesBase)
    (table_name : String) :
    (Except DBException StoragePtr × DatabaseWithOwnTablesBase) × List Event :=
  (db.detachTable table_name, [Event.lock, Event.unlock])

/-- Instrumented `attachDictionary`: the emplace happens in its own scope, so
the `reload` call (when `load` is set and the emplace succeeded) is performed
after `unlock`. -/
def DatabaseWithOwnTablesBase.attachDictionaryEv (context : Context)
    (db : DatabaseWithOwnTablesBase) (dictionary_name : String) (load : Bool) :
    (Except DBException Unit × DatabaseWithOwnTablesBase) × List Event :=
  let result := db.attachDictionary context dictionary_name load
  match Dictionaries.emplace db.dictionaries dictionary_name with
  | (_, false) => (result, [Event.lock, Event.unlock])
  | (_, true) =>
      if load then
        let lazy_load := context.dictionaries_lazy_load
        let qualified := db.getDatabaseName ++ "." ++ dictionary_name
        (result, [Event.lock, Event.unlock, Event.loaderReload qualified (!lazy_load)])
      else
        (result, [Event.lock, Event.unlock])

/-- Instrumented `detachDictionary`: the erase happens in its own scope, so the
`reload(qualified, true)` call is performed after `unlock`. -/
def DatabaseWithOwnTablesBase.detachDictionaryEv (context : Context)
    (db : DatabaseWithOwnTablesBase) (dictionary_name : String) :
    (Except DBException Unit × DatabaseWithOwnTablesBase) × List Event :=
  let result := db.detachDictionary context dictionary_name
  if Dictionaries.count db.dictionaries dictionary_name then
    let qualified := db.getDatabaseName ++ "." ++ dictionary_name
    (result, [Event.lock, Event.unlock, Event.loaderReload qualified true])
  else
    (result, [Event.lock, Event.unlock])

/-- Instrumented `shutdown`: snapshot under a first critical section, handle
shutdowns outside any lock, clearing under a second critical section. -/
def DatabaseWithOwnTablesBase.shutdownEv (db : DatabaseWithOwnTablesBase) :
    (DatabaseWithOwnTablesBase × List StoragePtr) × List Event :=
  let tables_snapshot := db.tables
  (db.shutdown,
    [Event.lock, Event.unlock]
      ++ tables_snapshot.map (fun kv => Event.storageShutdownCall kv.2)
      ++ [Event.lock, Event.unlock])

/-- Is an event a call into an external collaborator (the Dictionary Loader or
a storage handle's `shutdown`)? -/
def Event.isExternalCall : Event → Bool
  | .loaderTryGetDictionary _ => true
  | .loaderReload _ _ => true
  | .storageShutdownCall _ => true
  | _ => false

/-- Is an event a call into the Dictionary Loader? -/
def Event.isLoaderCall : Event → Bool
  | .loaderTryGetDictionary _ => true
  | .loaderReload _ _ => true
  | _ => false

/-- Scanning a trace with the current lock depth: does some event satisfying
`p` occur while the mutex is held (depth positive)? -/
def anyUnderLockAux (p : Event → Bool) : Nat → List Event → Bool
  | _, [] => false
  | depth, Event.lock :: tr => anyUnderLockAux p (depth + 1) tr
  | depth, Event.unlock :: tr => anyUnderLockAux p (depth - 1) tr
  | depth, e :: tr => (p e && decide (0 < depth)) || anyUnderLockAux p depth tr

/-- Does some event satisfying `p` occur while the mutex is held, starting
unlocked? -/
def anyUnderLock (p : Event → Bool) (tr : List Event) : Bool :=
  anyUnderLockAux p 0 tr

/-! ## Library lemmas about the container model -/

theorem Tables.find_append_some {m : Tables} {k : String} {v : StoragePtr}
    (h : Tables.find m k = some v) (m2 : Tables) :
    Tables.find (m ++ m2) k = some v := by
  induction m with
  | nil => simp [Tables.find] at h
  | cons kv rest ih =>
      simp only [Tables.find, List.cons_append] at h ⊢
      split at h
      · next heq => simp [heq, h]
      · next hne => simp only [hne, if_neg]; exact ih h

theorem Tables.find_append_none {m : Tables} {k : String}
    (h : Tables.find m k = none) (m2 : Tables) :
    Tables.find (m ++ m2) k = Tables.find m2 k := by
  induction m with
  | nil => simp [Tables.find]
  | cons kv rest ih =>
      simp only [Tables.find, List.cons_append] at h ⊢
      split at h
      · simp at h
      · next hne => simp only [hne, if_neg]; exact ih h

theorem Tables.find_eraseKey_self (m : Tables) (k : String) :
    Tables.find (Tables.eraseKey m k) k = none := by
  induction m with
  | nil => rfl
  | cons kv rest ih =>
      unfold Tables.eraseKey at ih ⊢
      rw [List.filter_cons]
      by_cases hk : kv.1 = k
      · simp [hk, ih]
      · simp [hk, Tables.find, ih]

theorem Tables.find_eraseKey_ne (m : Tables) {k k2 : String} (h : k2 ≠ k) :
    Tables.find (Tables.eraseKey m k) k2 = Tables.find m k2 := by
  induction m with
  | nil => rfl
  | cons kv rest ih =>
      unfold Tables.eraseKey at ih ⊢
      rw [List.filter_cons]
      by_cases hk : kv.1 = k
      · have h2 : kv.1 ≠ k2 := by rw [hk]; exact fun hc => h hc.symm
        simp [hk, Tables.find, h2, Ne.symm h, ih]
      · by_cases h2 : kv.1 = k2
        · simp [hk, h, h2, Tables.find]
        · simp [hk, h, h2, Tables.find, ih]

theorem Tables.find_isSome_iff_mem (m : Tables) (k : String) :
    (Tables.find m k).isSome = true ↔ ∃ v, (k, v) ∈ m := by
  induction m with
  | nil => simp [Tables.find]
  | cons kv rest ih =>
      obtain ⟨a, b⟩ := kv
      simp only [Tables.find]
      by_cases hk : a = k
      · subst hk
        simp
      · have hk2 : k ≠ a := fun hh => hk hh.symm
        simp [hk, hk2, ih, Prod.ext_iff]

theorem Dictionaries.contains_iff_mem (s : Dictionaries) (x : String) :
    s.contains x = true ↔ x ∈ s := by
  simp [List.contains]

theorem Dictionaries.contains_eraseKey_self (s : Dictionaries) (x : String) :
    (Dictionaries.eraseKey s x).contains x = false := by
  induction s with
  | nil => rfl
  | cons y rest ih =>
      unfold Dictionaries.eraseKey at ih ⊢
      rw [List.filter_cons]
      by_cases hy : y = x
      · simp [hy, ih]
      · simp [hy, Ne.symm hy, List.contains, ih]

theorem Dictionaries.contains_append_self (s : Dictionaries) (x : String) :
    (s ++ [x]).contains x = true := by
  rw [Dictionaries.contains_iff_mem]
  simp

theorem Tables.find_emplace_preserve {m : Tables} {k : String} {v : StoragePtr}
    (h : Tables.find m k = some v) (k2 : String) (v2 : StoragePtr) :
    Tables.find (Tables.emplace m k2 v2).1 k = some v := by
  unfold Tables.emplace
  cases hf : Tables.find m k2 with
  | some w => simpa [hf] using h
  | none => simpa [hf] using Tables.find_append_some h [(k2, v2)]


/-! ## Lemmas about lock traces -/

theorem anyUnderLockAux_cons_external (p : Event → Bool) (d : Nat) (e : Event)
    (tr : List Event) (he : e.isExternalCall = true) :
    anyUnderLockAux p d (e :: tr) = ((p e && decide (0 < d)) || anyUnderLockAux p d tr) := by
  cases e with
  | lock => simp [Event.isExternalCall] at he
  | unlock => simp [Event.isExternalCall] at he
  | loaderTryGetDictionary q => rfl
  | loaderReload q w => rfl
  | storageShutdownCall s => rfl

theorem anyUnderLockAux_external_append (p : Event → Bool) (d : Nat) (evs tr : List Event)
    (h : ∀ e ∈ evs, e.isExternalCall = true) :
    anyUnderLockAux p d (evs ++ tr)
      = ((decide (0 < d) && evs.any p) || anyUnderLockAux p d tr) := by
  induction evs with
  | nil => simp
  | cons e rest ih =>
      have he : e.isExternalCall = true := h e (List.mem_cons_self _ _)
      have hrest : ∀ e2 ∈ rest, e2.isExternalCall = true :=
        fun e2 h2 => h e2 (List.mem_cons_of_mem _ h2)
      rw [List.cons_append, anyUnderLockAux_cons_external p d e _ he, ih hrest,
        List.any_cons]
      cases hd : decide (0 < d) <;> cases hp : p e <;> simp

theorem anyUnderLock_critical_section (p : Event → Bool) (evs : List Event)
    (h : ∀ e ∈ evs, e.isExternalCall = true) :
    anyUnderLock p ([Event.lock] ++ evs ++ [Event.unlock]) = evs.any p := by
  simp only [anyUnderLock, List.cons_append, List.nil_append]
  rw [show anyUnderLockAux p 0 (Event.lock :: (evs ++ [Event.unlock]))
      = anyUnderLockAux p 1 (evs ++ [Event.unlock]) from rfl]
  rw [anyUnderLockAux_external_append p 1 evs [Event.unlock] h]
  simp [anyUnderLockAux]

theorem anyUnderLock_external_after (p : Event → Bool) (evs : List Event)
    (h : ∀ e ∈ evs, e.isExternalCall = true) :
    anyUnderLock p ([Event.lock, Event.unlock] ++ evs) = false := by
  simp only [anyUnderLock, List.cons_append, List.nil_append]
  rw [show anyUnderLockAux p 0 (Event.lock :: Event.unlock :: evs)
      = anyUnderLockAux p 0 evs from rfl]
  rw [show (evs : List Event) = evs ++ [] by simp]
  rw [anyUnderLockAux_external_append p 0 evs [] h]
  simp [anyUnderLockAux]

theorem anyUnderLock_shutdown_shape (p : Event → Bool) (evs : List Event)
    (h : ∀ e ∈ evs, e.isExternalCall = true) :
    anyUnderLock p ([Event.lock, Event.unlock] ++ evs ++ [Event.lock, Event.unlock])
      = false := by
  simp only [anyUnderLock, List.cons_append, List.nil_append]
  rw [show anyUnderLockAux p 0 (Event.lock :: Event.unlock :: (evs ++ [Event.lock, Event.unlock]))
      = anyUnderLockAux p 0 (evs ++ [Event.lock, Event.unlock]) from rfl]
  rw [anyUnderLockAux_external_append p 0 evs [Event.lock, Event.unlock] h]
  simp [anyUnderLockAux]

/-! ## Lemmas about the loader-event folds -/

theorem foldl_if_append {α β : Type} (filt : α → Bool) (f : α → β) (l : List α)
    (acc : List β) :
    List.foldl (fun a x => if filt x then a ++ [f x] else a) acc l
      = acc ++ (l.filter filt).map f := by
  induction l generalizing acc with
  | nil => simp
  | cons x rest ih =>
      simp only [List.foldl_cons, List.filter_cons]
      cases hx : filt x with
      | true => simp [hx, ih]
      | false => simp [hx, ih]

theorem foldl_append_map {α β : Type} (f : α → β) (l : List α) (acc : List β) :
    List.foldl (fun a x => a ++ [f x]) acc l = acc ++ l.map f := by
  induction l generalizing acc with
  | nil => simp
  | cons x rest ih => simp [ih]


/-! ## Concrete example inputs used by the witnesses -/

/-- A sample dictionary structural schema. -/
def exampleStructure : DictionaryStructure :=
  ⟨[("key", "UInt64"), ("value", "String")]⟩

/-- A context whose loader knows exactly the qualified dictionary `db.d` and
whose reload always succeeds. -/
def exampleContext : Context :=
  { externalDictionaries := fun q => if q = "db.d" then some exampleStructure else none
    reloadFails := fun _ _ => false
    dictionaries_lazy_load := true }

/-- A context whose loader knows `db.d` but whose reload always throws. -/
def exampleFailingContext : Context :=
  { externalDictionaries := fun q => if q = "db.d" then some exampleStructure else none
    reloadFails := fun _ _ => true
    dictionaries_lazy_load := true }

/-- A database `db` with one table `t1` and one attached dictionary `d`. -/
def exampleDb : DatabaseWithOwnTablesBase :=
  { name := "db", tables := [("t1", StoragePtr.storage 1)], dictionaries := ["d"] }

/-- A database in which the name `d` is both a table key and a dictionary. -/
def exampleDbBoth : DatabaseWithOwnTablesBase :=
  { name := "db", tables := [("d", StoragePtr.storage 2)], dictionaries := ["d"] }

/-- A database with a dictionary `e` the loader does not know. -/
def exampleDbMiss : DatabaseWithOwnTablesBase :=
  { name := "db", tables := [], dictionaries := ["e"] }

/-- A filter accepting exactly the name `d`. -/
def exampleFilter : String → Bool := fun s => s == "d"

/-! ## Claim C8 -/

/-- Claim C8: for every name `n`, `isTableExist(n)` returns true if and only
if `n` is a key of the table map or a member of the dictionary name set; in
particular it is true for an attached dictionary that has no table entry. -/
theorem isTableExist_iff_table_key_or_dictionary_member
    (db : DatabaseWithOwnTablesBase) (n : String) :
    db.isTableExist n = true ↔ ((∃ v, (n, v) ∈ db.tables) ∨ n ∈ db.dictionaries) := by
  simp only [DatabaseWithOwnTablesBase.isTableExist, Bool.or_eq_true,
    Tables.find_isSome_iff_mem, Dictionaries.count, Dictionaries.contains_iff_mem]

/-! ## Claim C3 -/

/-- Claim C3: `detachTable(n)` fails with the misuse exception (detach a
dictionary as a table) when `n` is in the dictionary name set, leaving the
state unchanged (so `n` stays attached); fails with the doesn't-exist
exception when `n` is absent from the table map; and otherwise returns
exactly the handle stored under `n`, removing only `n` from the table map. -/
theorem detachTable_spec (db : DatabaseWithOwnTablesBase) (n : String) :
    (Dictionaries.count db.dictionaries n = true →
      db.detachTable n = (.error (.cannotDetachDictionaryAsTable db.name n), db))
    ∧ (Dictionaries.count db.dictionaries n = false → Tables.find db.tables n = none →
      db.detachTable n = (.error (.tableDoesntExist db.name n), db))
    ∧ (∀ v, Dictionaries.count db.dictionaries n = false → Tables.find db.tables n = some v →
      (db.detachTable n).1 = .ok v
        ∧ Tables.find (db.detachTable n).2.tables n = none
        ∧ (∀ m, m ≠ n → Tables.find (db.detachTable n).2.tables m = Tables.find db.tables m)
        ∧ (db.detachTable n).2.dictionaries = db.dictionaries
        ∧ (db.detachTable n).2.name = db.name) := by
  refine ⟨?_, ?_, ?_⟩
  · intro hd
    simp [DatabaseWithOwnTablesBase.detachTable, hd]
  · intro hd hf
    simp [DatabaseWithOwnTablesBase.detachTable, hd, hf]
  · intro v hd hf
    have hres : db.detachTable n
        = (.ok v, { db with tables := Tables.eraseKey db.tables n }) := by
      simp [DatabaseWithOwnTablesBase.detachTable, hd, hf]
    rw [hres]
    exact ⟨rfl, Tables.find_eraseKey_self _ _,
      fun m hm => Tables.find_eraseKey_ne _ hm, rfl, rfl⟩

/-- Witness for C3 at concrete inputs: detaching the dictionary name `d` as a
table is the misuse error and leaves `d` attached; detaching the absent `t2`
is the doesn't-exist error; detaching the table `t1` returns its handle. -/
theorem detachTable_spec_witness :
    (Dictionaries.count exampleDb.dictionaries "d" = true
      ∧ exampleDb.detachTable "d"
          = (.error (.cannotDetachDictionaryAsTable exampleDb.name "d"), exampleDb))
    ∧ (Dictionaries.count exampleDb.dictionaries "t2" = false
      ∧ Tables.find exampleDb.tables "t2" = none
      ∧ exampleDb.detachTable "t2"
          = (.error (.tableDoesntExist exampleDb.name "t2"), exampleDb))
    ∧ (exampleDb.detachTable "t1").1 = .ok (StoragePtr.storage 1) :=
  ⟨⟨by decide, (detachTable_spec exampleDb "d").1 (by decide)⟩,
   ⟨by decide, by decide, (detachTable_spec exampleDb "t2").2.1 (by decide) (by decide)⟩,
   ((detachTable_spec exampleDb "t1").2.2 (StoragePtr.storage 1) (by decide) (by decide)).1⟩

/-! ## Claim C7 -/

/-- Claim C7: `attachTable(n, h)` inserts and succeeds whenever `n` is not a
table key — even when `n` is already a member of the dictionary name set (no
cross-check) — and fails with the already-exists error only when `n` is
already a table key, leaving the state unchanged. -/
theorem attachTable_no_dictionary_cross_check (db : DatabaseWithOwnTablesBase)
    (n : String) (t : StoragePtr) :
    (Tables.find db.tables n = none →
      (db.attachTable n t).1 = .ok ()
        ∧ Tables.find (db.attachTable n t).2.tables n = some t
        ∧ (db.attachTable n t).2.dictionaries = db.dictionaries)
    ∧ (Dictionaries.count db.dictionaries n = true → Tables.find db.tables n = none →
      (db.attachTable n t).1 = .ok ())
    ∧ (∀ v, Tables.find db.tables n = some v →
      db.attachTable n t = (.error (.tableAlreadyExists db.name n), db)) := by
  have hsucc : Tables.find db.tables n = none →
      (db.attachTable n t).1 = .ok ()
        ∧ Tables.find (db.attachTable n t).2.tables n = some t
        ∧ (db.attachTable n t).2.dictionaries = db.dictionaries := by
    intro hf
    have hfind : Tables.find (db.tables ++ [(n, t)]) n = some t := by
      rw [Tables.find_append_none hf]
      simp [Tables.find]
    simp [DatabaseWithOwnTablesBase.attachTable, Tables.emplace, hf, hfind]
  refine ⟨hsucc, fun _ hf => (hsucc hf).1, ?_⟩
  intro v hf
  simp [DatabaseWithOwnTablesBase.attachTable, Tables.emplace, hf]

/-- Witness for C7: attaching `d` as a table succeeds in `exampleDb` although
`d` is an attached dictionary there; attaching `t1` again fails. -/
theorem attachTable_no_dictionary_cross_check_witness :
    (Dictionaries.count exampleDb.dictionaries "d" = true
      ∧ Tables.find exampleDb.tables "d" = none
      ∧ (exampleDb.attachTable "d" (StoragePtr.storage 7)).1 = .ok ())
    ∧ (Tables.find exampleDb.tables "t1" = some (StoragePtr.storage 1)
      ∧ exampleDb.attachTable "t1" (StoragePtr.storage 7)
          = (.error (.tableAlreadyExists exampleDb.name "t1"), exampleDb)) :=
  ⟨⟨by decide, by decide,
    (attachTable_no_dictionary_cross_check exampleDb "d" (StoragePtr.storage 7)).2.1
      (by decide) (by decide)⟩,
   ⟨by decide,
    (attachTable_no_dictionary_cross_check exampleDb "t1" (StoragePtr.storage 7)).2.2
      (StoragePtr.storage 1) (by decide)⟩⟩


/-! ## Claim C4 -/

/-- Claim C4: attaching the same name twice — through `attachTable` into the
table map, or through `attachDictionary` into the dictionary name set —
without an intervening detach fails with the respective already-exists error
on the second call, and the second call leaves the registry exactly as it was
after the first call. -/
theorem attach_twice_already_exists (context context2 : Context)
    (db : DatabaseWithOwnTablesBase) (n : String) (t t2 : StoragePtr)
    (load load2 : Bool) :
    (Tables.find db.tables n = none →
      (db.attachTable n t).1 = .ok ()
        ∧ ((db.attachTable n t).2.attachTable n t2)
            = (.error (.tableAlreadyExists db.name n), (db.attachTable n t).2))
    ∧ (Dictionaries.count db.dictionaries n = false →
      ((db.attachDictionary context n load).2.attachDictionary context2 n load2)
        = (.error (.dictionaryAlreadyExists db.name n),
            (db.attachDictionary context n load).2)) := by
  constructor
  · intro hf
    have h1 : db.attachTable n t
        = (.ok (), { db with tables := db.tables ++ [(n, t)] }) := by
      simp [DatabaseWithOwnTablesBase.attachTable, Tables.emplace, hf]
    have hfind : Tables.find (db.tables ++ [(n, t)]) n = some t := by
      rw [Tables.find_append_none hf]
      simp [Tables.find]
    refine ⟨by rw [h1], ?_⟩
    rw [h1]
    simp [DatabaseWithOwnTablesBase.attachTable, Tables.emplace, hfind]
  · intro hd
    have hd' : db.dictionaries.contains n = false := hd
    have h1 : (db.attachDictionary context n load).2
        = { db with dictionaries := db.dictionaries ++ [n] } := by
      simp only [DatabaseWithOwnTablesBase.attachDictionary, Dictionaries.emplace, hd',
        Bool.false_eq_true, if_false]
      cases load with
      | false => rfl
      | true =>
          split <;> first | rfl | (split <;> rfl)
    rw [h1]
    have hc : Dictionaries.count (db.dictionaries ++ [n]) n = true :=
      Dictionaries.contains_append_self db.dictionaries n
    have hc' : (db.dictionaries ++ [n]).contains n = true := hc
    simp [DatabaseWithOwnTablesBase.attachDictionary, Dictionaries.emplace, hc']

/-- Witness for C4: in `exampleDb` the name `t2` is fresh; attaching it twice
as a table fails the second time; the fresh dictionary name `d2` attached
twice fails the second time; both second calls leave the state of the first. -/
theorem attach_twice_already_exists_witness :
    (Tables.find exampleDb.tables "t2" = none
      ∧ (exampleDb.attachTable "t2" (StoragePtr.storage 3)).1 = .ok ()
      ∧ ((exampleDb.attachTable "t2" (StoragePtr.storage 3)).2.attachTable "t2"
            (StoragePtr.storage 4))
          = (.error (.tableAlreadyExists exampleDb.name "t2"),
              (exampleDb.attachTable "t2" (StoragePtr.storage 3)).2))
    ∧ (Dictionaries.count exampleDb.dictionaries "d2" = false
      ∧ ((exampleDb.attachDictionary exampleContext "d2" false).2.attachDictionary
            exampleContext "d2" true)
          = (.error (.dictionaryAlreadyExists exampleDb.name "d2"),
              (exampleDb.attachDictionary exampleContext "d2" false).2)) :=
  ⟨⟨by decide,
    ((attach_twice_already_exists exampleContext exampleContext exampleDb "t2"
        (StoragePtr.storage 3) (StoragePtr.storage 4) false false).1 (by decide)).1,
    ((attach_twice_already_exists exampleContext exampleContext exampleDb "t2"
        (StoragePtr.storage 3) (StoragePtr.storage 4) false false).1 (by decide)).2⟩,
   ⟨by decide,
    (attach_twice_already_exists exampleContext exampleContext exampleDb "d2"
        (StoragePtr.storage 3) (StoragePtr.storage 4) false true).2 (by decide)⟩⟩

/-! ## Claim C5 -/

/-- Claim C5: `tryGetTable(n)` returns the stored handle when `n` is a table
key (taking precedence over a dictionary of the same name); otherwise, when
`n` is an attached dictionary name, it returns the freshly built dictionary
view — built by `getDictionaryStorage` from the loader's current schema — or
nothing when the loader cannot currently produce the dictionary; otherwise it
returns nothing. -/
theorem tryGetTable_spec (context : Context) (db : DatabaseWithOwnTablesBase)
    (n : String) :
    (∀ v, Tables.find db.tables n = some v → db.tryGetTable context n = some v)
    ∧ (Tables.find db.tables n = none → Dictionaries.count db.dictionaries n = true →
        db.tryGetTable context n = getDictionaryStorage context n db.name
        ∧ (∀ s, context.externalDictionaries (db.name ++ "." ++ n) = some s →
            db.tryGetTable context n
              = some (StorageDictionary.create db.name n
                  (StorageDictionary.getNamesAndTypes s) true (db.name ++ "." ++ n)))
        ∧ (context.externalDictionaries (db.name ++ "." ++ n) = none →
            db.tryGetTable context n = none))
    ∧ (Tables.find db.tables n = none → Dictionaries.count db.dictionaries n = false →
        db.tryGetTable context n = none) := by
  refine ⟨?_, ?_, ?_⟩
  · intro v hf
    simp [DatabaseWithOwnTablesBase.tryGetTable, hf]
  · intro hf hd
    have hbase : db.tryGetTable context n = getDictionaryStorage context n db.name := by
      simp [DatabaseWithOwnTablesBase.tryGetTable, hf, hd,
        DatabaseWithOwnTablesBase.getDatabaseName]
    refine ⟨hbase, ?_, ?_⟩
    · intro s hs
      rw [hbase]
      simp [getDictionaryStorage, Context.tryGetDictionary, hs]
    · intro hs
      rw [hbase]
      simp [getDictionaryStorage, Context.tryGetDictionary, hs]
  · intro hf hd
    simp [DatabaseWithOwnTablesBase.tryGetTable, hf, hd]

/-- Witness for C5: in `exampleDbBoth` the table entry for `d` wins over the
dictionary; in `exampleDb` the lookup of `d` builds the view from the loader's
schema; in `exampleDbMiss` the loader does not know `e`, so the lookup of the
attached dictionary `e` yields nothing. -/
theorem tryGetTable_spec_witness :
    (Tables.find exampleDbBoth.tables "d" = some (StoragePtr.storage 2)
      ∧ exampleDbBoth.tryGetTable exampleContext "d" = some (StoragePtr.storage 2))
    ∧ (Tables.find exampleDb.tables "d" = none
      ∧ Dictionaries.count exampleDb.dictionaries "d" = true
      ∧ exampleContext.externalDictionaries (exampleDb.name ++ "." ++ "d")
          = some exampleStructure
      ∧ exampleDb.tryGetTable exampleContext "d"
          = some (StorageDictionary.create exampleDb.name "d"
              (StorageDictionary.getNamesAndTypes exampleStructure) true
              (exampleDb.name ++ "." ++ "d")))
    ∧ (Tables.find exampleDbMiss.tables "e" = none
      ∧ Dictionaries.count exampleDbMiss.dictionaries "e" = true
      ∧ exampleContext.externalDictionaries (exampleDbMiss.name ++ "." ++ "e") = none
      ∧ exampleDbMiss.tryGetTable exampleContext "e" = none) :=
  ⟨⟨by decide,
    (tryGetTable_spec exampleContext exampleDbBoth "d").1 (StoragePtr.storage 2) (by decide)⟩,
   ⟨by decide, by decide, by decide,
    ((tryGetTable_spec exampleContext exampleDb "d").2.1 (by decide) (by decide)).2.1
      exampleStructure (by decide)⟩,
   ⟨by decide, by decide, by decide,
    ((tryGetTable_spec exampleContext exampleDbMiss "e").2.1 (by decide) (by decide)).2.2
      (by decide)⟩⟩

/-! ## Claim C6 -/

/-- Auxiliary: the number of shutdown calls a value receives equals the number
of table-map entries whose stored handle is that value. -/
theorem count_map_snd (l : Tables) (v : StoragePtr) :
    (l.map (fun kv => kv.2)).count v = (l.filter (fun kv => kv.2 == v)).length := by
  induction l with
  | nil => rfl
  | cons kv rest ih =>
      rw [List.map_cons, List.count_cons, List.filter_cons, ih]
      cases hv : kv.2 == v with
      | true => simp [hv]
      | false => simp [hv]

/-- Claim C6: after `shutdown()`, `empty()` is true (both structures cleared),
and the `shutdown` operation was invoked on exactly the handles stored in the
table map when the call began: each handle receives exactly as many shutdown
calls as it had entries (so a handle stored under one name is shut down
exactly once), and every stored handle receives one. -/
theorem shutdown_clears_and_calls_each_handle_once (db : DatabaseWithOwnTablesBase) :
    (db.shutdown).1.empty = true
    ∧ (db.shutdown).1.tables = [] ∧ (db.shutdown).1.dictionaries = []
    ∧ (∀ k v, (k, v) ∈ db.tables → v ∈ (db.shutdown).2)
    ∧ (∀ v, (db.shutdown).2.count v = (db.tables.filter (fun kv => kv.2 == v)).length) := by
  refine ⟨rfl, rfl, rfl, ?_, ?_⟩
  · intro k v hv
    exact List.mem_map.mpr ⟨(k, v), hv, rfl⟩
  · intro v
    exact count_map_snd db.tables v


/-! ## Claim C9 -/

/-- Auxiliary: the merge loop of the unfiltered combined iterator preserves
every binding already present in the accumulator (emplace never overwrites). -/
theorem find_foldl_dict_emplace_preserve (context : Context) (dbn : String)
    (l : List String) {acc : Tables} {k : String} {v : StoragePtr}
    (h : Tables.find acc k = some v) :
    Tables.find
      (l.foldl (fun a dictionary_name =>
        match getDictionaryStorage context dictionary_name dbn with
        | some dictionary_storage => (Tables.emplace a dictionary_name dictionary_storage).1
        | none => a) acc) k = some v := by
  induction l generalizing acc with
  | nil => exact h
  | cons dn rest ih =>
      rw [List.foldl_cons]
      cases hg : getDictionaryStorage context dn dbn with
      | none => simpa [hg] using ih h
      | some st => simpa [hg] using ih (Tables.find_emplace_preserve h dn st)

/-- Claim C9: the iterators are frozen snapshots: an attach performed after an
iterator was created is invisible to it (the new name is absent from the
snapshot although present in the registry afterwards), and a detach performed
after the combined iterator was created leaves the detached entry visible in
the snapshot although gone from the registry. -/
theorem snapshot_iterators_frozen (context : Context) (db : DatabaseWithOwnTablesBase)
    (n dn : String) (t : StoragePtr) :
    (Tables.find db.tables n = none →
      Tables.find (db.getTablesIterator none) n = none
        ∧ (db.attachTable n t).1 = .ok ()
        ∧ Tables.find ((db.attachTable n t).2.tables) n = some t)
    ∧ (Dictionaries.count db.dictionaries dn = false →
      Dictionaries.count (db.getDictionariesIterator none) dn = false
        ∧ (db.attachDictionary context dn false).1 = .ok ()
        ∧ Dictionaries.count ((db.attachDictionary context dn false).2.dictionaries) dn
            = true)
    ∧ (∀ v, Tables.find db.tables n = some v → Dictionaries.count db.dictionaries n = false →
      Tables.find (db.getTablesWithDictionaryTablesIterator context none) n = some v
        ∧ (db.detachTable n).1 = .ok v
        ∧ Tables.find ((db.detachTable n).2.tables) n = none) := by
  refine ⟨?_, ?_, ?_⟩
  · intro hf
    have hfind : Tables.find (db.tables ++ [(n, t)]) n = some t := by
      rw [Tables.find_append_none hf]
      simp [Tables.find]
    exact ⟨hf, by simp [DatabaseWithOwnTablesBase.attachTable, Tables.emplace, hf],
      by simp [DatabaseWithOwnTablesBase.attachTable, Tables.emplace, hf, hfind]⟩
  · intro hd
    have hd' : db.dictionaries.contains dn = false := hd
    have h1 : db.attachDictionary context dn false
        = (.ok (), { db with dictionaries := db.dictionaries ++ [dn] }) := by
      simp only [DatabaseWithOwnTablesBase.attachDictionary, Dictionaries.emplace, hd',
        Bool.false_eq_true, if_false]
    refine ⟨hd, by rw [h1], ?_⟩
    rw [h1]
    exact Dictionaries.contains_append_self db.dictionaries dn
  · intro v hf hd
    refine ⟨?_, ?_, ?_⟩
    · simp only [DatabaseWithOwnTablesBase.getTablesWithDictionaryTablesIterator]
      exact find_foldl_dict_emplace_preserve context db.getDatabaseName db.dictionaries hf
    · simp [DatabaseWithOwnTablesBase.detachTable, hd, hf]
    · have hres : (db.detachTable n).2.tables = Tables.eraseKey db.tables n := by
        simp [DatabaseWithOwnTablesBase.detachTable, hd, hf]
      rw [hres]
      exact Tables.find_eraseKey_self _ _

/-- Witness for C9 at concrete inputs in `exampleDb`: the table snapshot taken
before attaching `t2` does not contain it; the dictionary snapshot taken
before attaching `d2` does not contain it; the combined snapshot taken before
detaching `t1` still contains it. -/
theorem snapshot_iterators_frozen_witness :
    (Tables.find exampleDb.tables "t2" = none
      ∧ Tables.find (exampleDb.getTablesIterator none) "t2" = none
      ∧ Tables.find ((exampleDb.attachTable "t2" (StoragePtr.storage 3)).2.tables) "t2"
          = some (StoragePtr.storage 3))
    ∧ (Dictionaries.count exampleDb.dictionaries "d2" = false
      ∧ Dictionaries.count (exampleDb.getDictionariesIterator none) "d2" = false
      ∧ Dictionaries.count
          ((exampleDb.attachDictionary exampleContext "d2" false).2.dictionaries) "d2"
          = true)
    ∧ (Tables.find exampleDb.tables "t1" = some (StoragePtr.storage 1)
      ∧ Tables.find (exampleDb.getTablesWithDictionaryTablesIterator exampleContext none)
          "t1" = some (StoragePtr.storage 1)
      ∧ Tables.find ((exampleDb.detachTable "t1").2.tables) "t1" = none) :=
  ⟨⟨by decide,
    ((snapshot_iterators_frozen exampleContext exampleDb "t2" "d2"
        (StoragePtr.storage 3)).1 (by decide)).1,
    ((snapshot_iterators_frozen exampleContext exampleDb "t2" "d2"
        (StoragePtr.storage 3)).1 (by decide)).2.2⟩,
   ⟨by decide,
    ((snapshot_iterators_frozen exampleContext exampleDb "t2" "d2"
        (StoragePtr.storage 3)).2.1 (by decide)).1,
    ((snapshot_iterators_frozen exampleContext exampleDb "t2" "d2"
        (StoragePtr.storage 3)).2.1 (by decide)).2.2⟩,
   ⟨by decide,
    ((snapshot_iterators_frozen exampleContext exampleDb "t1" "d2"
        (StoragePtr.storage 3)).2.2 (StoragePtr.storage 1) (by decide) (by decide)).1,
    ((snapshot_iterators_frozen exampleContext exampleDb "t1" "d2"
        (StoragePtr.storage 3)).2.2 (StoragePtr.storage 1) (by decide) (by decide)).2.2⟩⟩

/-! ## Claim C10 -/

/-- Claim C10: `attachDictionary` and `detachDictionary` commit their mutation
of the dictionary name set before calling the loader's `reload`; when the
reload throws, the error propagates but the registry keeps the completed
mutation: after a failed `attachDictionary(n, load=true)` the name is still
attached, and after a failed `detachDictionary(n)` it is still detached. -/
theorem dictionary_mutation_commits_before_reload (context : Context)
    (db : DatabaseWithOwnTablesBase) (n : String) :
    (Dictionaries.count db.dictionaries n = false →
      context.reloadFails (db.name ++ "." ++ n) (!context.dictionaries_lazy_load) = true →
      (db.attachDictionary context n true).1
          = .error (.externalLoaderReloadFailed (db.name ++ "." ++ n))
        ∧ Dictionaries.count ((db.attachDictionary context n true).2.dictionaries) n = true)
    ∧ (Dictionaries.count db.dictionaries n = true →
      context.reloadFails (db.name ++ "." ++ n) true = true →
      (db.detachDictionary context n).1
          = .error (.externalLoaderReloadFailed (db.name ++ "." ++ n))
        ∧ Dictionaries.count ((db.detachDictionary context n).2.dictionaries) n = false) := by
  constructor
  · intro hd hr
    have hd' : db.dictionaries.contains n = false := hd
    have h1 : db.attachDictionary context n true
        = (.error (.externalLoaderReloadFailed (db.name ++ "." ++ n)),
            { db with dictionaries := db.dictionaries ++ [n] }) := by
      simp only [DatabaseWithOwnTablesBase.attachDictionary, Dictionaries.emplace, hd',
        Bool.false_eq_true, if_false, DatabaseWithOwnTablesBase.getDatabaseName]
      simp [hr]
    refine ⟨by rw [h1], ?_⟩
    rw [h1]
    exact Dictionaries.contains_append_self db.dictionaries n
  · intro hd hr
    have h1 : db.detachDictionary context n
        = (.error (.externalLoaderReloadFailed (db.name ++ "." ++ n)),
            { db with dictionaries := Dictionaries.eraseKey db.dictionaries n }) := by
      simp only [DatabaseWithOwnTablesBase.detachDictionary,
        DatabaseWithOwnTablesBase.getDatabaseName, hd, if_true]
      simp [hr]
    refine ⟨by rw [h1], ?_⟩
    rw [h1]
    exact Dictionaries.contains_eraseKey_self db.dictionaries n

/-- Witness for C10 under `exampleFailingContext` (its reload always throws):
attaching the fresh dictionary `d2` reports the reload failure yet leaves `d2`
attached; detaching `d` reports the reload failure yet leaves `d` detached. -/
theorem dictionary_mutation_commits_before_reload_witness :
    (Dictionaries.count exampleDb.dictionaries "d2" = false
      ∧ exampleFailingContext.reloadFails (exampleDb.name ++ "." ++ "d2")
          (!exampleFailingContext.dictionaries_lazy_load) = true
      ∧ (exampleDb.attachDictionary exampleFailingContext "d2" true).1
          = .error (.externalLoaderReloadFailed (exampleDb.name ++ "." ++ "d2"))
      ∧ Dictionaries.count
          ((exampleDb.attachDictionary exampleFailingContext "d2" true).2.dictionaries)
          "d2" = true)
    ∧ (Dictionaries.count exampleDb.dictionaries "d" = true
      ∧ exampleFailingContext.reloadFails (exampleDb.name ++ "." ++ "d") true = true
      ∧ (exampleDb.detachDictionary exampleFailingContext "d").1
          = .error (.externalLoaderReloadFailed (exampleDb.name ++ "." ++ "d"))
      ∧ Dictionaries.count
          ((exampleDb.detachDictionary exampleFailingContext "d").2.dictionaries) "d"
          = false) :=
  ⟨⟨by decide, by decide,
    ((dictionary_mutation_commits_before_reload exampleFailingContext exampleDb "d2").1
        (by decide) (by decide)).1,
    ((dictionary_mutation_commits_before_reload exampleFailingContext exampleDb "d2").1
        (by decide) (by decide)).2⟩,
   ⟨by decide, by decide,
    ((dictionary_mutation_commits_before_reload exampleFailingContext exampleDb "d").2
        (by decide) (by decide)).1,
    ((dictionary_mutation_commits_before_reload exampleFailingContext exampleDb "d").2
        (by decide) (by decide)).2⟩⟩


/-! ## Claim C2 -/

/-- Counterexample to C2 as stated: in `exampleDb`, looking up the attached
dictionary name `d` with `tryGetTable` calls the Dictionary Loader
(`tryGetDictionary`) while the per-database mutex is held — the `lock_guard`
spans the whole function body, including the `getDictionaryStorage` call. -/
theorem tryGetTable_calls_loader_under_lock_cex :
    anyUnderLock Event.isLoaderCall
      ((exampleDb.tryGetTableEv exampleContext "d")).2 = true := by decide

/-- Amended C2: the mutex is released before the loader's `reload` calls of
`attachDictionary` and `detachDictionary` and before the per-handle `shutdown`
calls of `shutdown`, and the operations that touch only the maps perform no
external call at all; however `tryGetTable` (when it resolves a dictionary
name) and `getTablesWithDictionaryTablesIterator` (for every dictionary name
it materializes) call the loader's `tryGetDictionary` while holding the
mutex. -/
theorem lock_discipline_amended (context : Context) (db : DatabaseWithOwnTablesBase)
    (n : String) (t : StoragePtr) (load : Bool) (filt : String → Bool) :
    anyUnderLock Event.isExternalCall (db.attachDictionaryEv context n load).2 = false
    ∧ anyUnderLock Event.isExternalCall (db.detachDictionaryEv context n).2 = false
    ∧ anyUnderLock Event.isExternalCall (db.shutdownEv).2 = false
    ∧ anyUnderLock Event.isExternalCall (db.attachTableEv n t).2 = false
    ∧ anyUnderLock Event.isExternalCall (db.detachTableEv n).2 = false
    ∧ anyUnderLock Event.isExternalCall (db.isTableExistEv n).2 = false
    ∧ anyUnderLock Event.isExternalCall (db.isDictionaryExistEv n).2 = false
    ∧ anyUnderLock Event.isExternalCall (db.emptyEv).2 = false
    ∧ anyUnderLock Event.isExternalCall (db.getTablesIteratorEv (some filt)).2 = false
    ∧ anyUnderLock Event.isExternalCall (db.getDictionariesIteratorEv (some filt)).2 = false
    ∧ (Tables.find db.tables n = none → Dictionaries.count db.dictionaries n = true →
        anyUnderLock Event.isLoaderCall (db.tryGetTableEv context n).2 = true)
    ∧ (n ∈ db.dictionaries → filt n = true →
        anyUnderLock Event.isLoaderCall
          (db.getTablesWithDictionaryTablesIteratorEv context (some filt)).2 = true) := by
  refine ⟨?_, ?_, ?_, rfl, rfl, rfl, rfl, rfl, rfl, rfl, ?_, ?_⟩
  · unfold DatabaseWithOwnTablesBase.attachDictionaryEv
    rcases Dictionaries.emplace db.dictionaries n with ⟨ds, b⟩
    cases b
    · rfl
    · cases load
      · rfl
      · exact anyUnderLock_external_after Event.isExternalCall
          [Event.loaderReload (db.getDatabaseName ++ "." ++ n)
            (!context.dictionaries_lazy_load)] (by intro e he; simp at he; subst he; rfl)
  · unfold DatabaseWithOwnTablesBase.detachDictionaryEv
    cases hc : Dictionaries.count db.dictionaries n
    · simp only [Bool.false_eq_true, if_false]
      rfl
    · simp only [if_true]
      exact anyUnderLock_external_after Event.isExternalCall
        [Event.loaderReload (db.getDatabaseName ++ "." ++ n) true]
        (by intro e he; simp at he; subst he; rfl)
  · unfold DatabaseWithOwnTablesBase.shutdownEv
    exact anyUnderLock_shutdown_shape Event.isExternalCall
      (db.tables.map (fun kv => Event.storageShutdownCall kv.2))
      (by
        intro e he
        rcases List.mem_map.mp he with ⟨kv, _, hkv⟩
        rw [← hkv]
        rfl)
  · intro hf hd
    simp only [DatabaseWithOwnTablesBase.tryGetTableEv, hf, hd, if_true,
      getDictionaryStorageEv]
    rfl
  · intro hn hfn
    simp only [DatabaseWithOwnTablesBase.getTablesWithDictionaryTablesIteratorEv,
      getDictionaryStorageEv]
    have hfold : db.dictionaries.foldl
        (fun acc dictionary_name =>
          if filt dictionary_name then
            acc ++ [Event.loaderTryGetDictionary
              (db.getDatabaseName ++ "." ++ dictionary_name)]
          else acc) []
        = (db.dictionaries.filter filt).map
            (fun dictionary_name => Event.loaderTryGetDictionary
              (db.getDatabaseName ++ "." ++ dictionary_name)) := by
      rw [foldl_if_append filt
        (fun dictionary_name => Event.loaderTryGetDictionary
          (db.getDatabaseName ++ "." ++ dictionary_name)) db.dictionaries []]
      rfl
    rw [hfold, anyUnderLock_critical_section]
    · rw [List.any_eq_true]
      refine ⟨Event.loaderTryGetDictionary (db.getDatabaseName ++ "." ++ n), ?_, rfl⟩
      exact List.mem_map_of_mem _ (List.mem_filter.mpr ⟨hn, hfn⟩)
    · intro e he
      rcases List.mem_map.mp he with ⟨dn, _, hdn⟩
      rw [← hdn]
      rfl

/-- Witness for the amended C2 at concrete inputs: `exampleDb`, the name `d`
(an attached dictionary that is not a table) and the filter accepting `d`. -/
theorem lock_discipline_amended_witness :
    anyUnderLock Event.isExternalCall
      ((exampleDb.attachDictionaryEv exampleContext "d2" true)).2 = false
    ∧ anyUnderLock Event.isExternalCall
        ((exampleDb.detachDictionaryEv exampleContext "d")).2 = false
    ∧ anyUnderLock Event.isExternalCall (exampleDb.shutdownEv).2 = false
    ∧ (Tables.find exampleDb.tables "d" = none
      ∧ Dictionaries.count exampleDb.dictionaries "d" = true
      ∧ anyUnderLock Event.isLoaderCall
          ((exampleDb.tryGetTableEv exampleContext "d")).2 = true)
    ∧ ("d" ∈ exampleDb.dictionaries
      ∧ exampleFilter "d" = true
      ∧ anyUnderLock Event.isLoaderCall
          ((exampleDb.getTablesWithDictionaryTablesIteratorEv exampleContext
              (some exampleFilter))).2 = true) :=
  ⟨(lock_discipline_amended exampleContext exampleDb "d2" (StoragePtr.storage 9) true
      exampleFilter).1,
   (lock_discipline_amended exampleContext exampleDb "d" (StoragePtr.storage 9) true
      exampleFilter).2.1,
   (lock_discipline_amended exampleContext exampleDb "d" (StoragePtr.storage 9) true
      exampleFilter).2.2.1,
   ⟨by decide, by decide,
    (lock_discipline_amended exampleContext exampleDb "d" (StoragePtr.storage 9) true
        exampleFilter).2.2.2.2.2.2.2.2.2.2.1 (by decide) (by decide)⟩,
   ⟨by decide, by decide,
    (lock_discipline_amended exampleContext exampleDb "d" (StoragePtr.storage 9) true
        exampleFilter).2.2.2.2.2.2.2.2.2.2.2 (by decide) (by decide)⟩⟩

/-! ## Claim C1 -/

/-- Evaluation of the filtered combined iterator at a failing input, for C1:
in `exampleDb` with the filter accepting exactly `d`, the dictionary `d`
passes the filter, its view is currently buildable, and the loader is indeed
consulted for `db.d` (the view is materialized, as the trace shows) — yet the
returned snapshot is empty: the view was emplaced into the discarded
`tables_copy` instead of `filtered_tables`, so the iterator lacks the entry
for `d` that the claim requires. -/
theorem filtered_combined_iterator_discards_views :
    exampleFilter "d" = true
    ∧ getDictionaryStorage exampleContext "d" "db"
        = some (StorageDictionary.create "db" "d"
            (StorageDictionary.getNamesAndTypes exampleStructure) true "db.d")
    ∧ Event.loaderTryGetDictionary "db.d"
        ∈ (exampleDb.getTablesWithDictionaryTablesIteratorEv exampleContext
            (some exampleFilter)).2
    ∧ exampleDb.getTablesWithDictionaryTablesIterator exampleContext
        (some exampleFilter) = []
    ∧ Tables.find
        (exampleDb.getTablesWithDictionaryTablesIterator exampleContext
          (some exampleFilter)) "d" = none := by decide

end DB
